import Mathlib

/-!
Verification of the credential/session lifecycle of the mindmarks backend.

This file gives a shallow embedding of the token-lifecycle code of the
repository (backend/app/core/security.py, backend/app/services/user_service.py,
backend/app/db/models.py and the auth endpoints of
backend/app/api/v1/endpoints/auth.py) and proves or refutes the spec's claims
about it.

Modelling conventions:
 * `datetime.utcnow()` is an injectable clock value `now : Int` (seconds);
   `timedelta(minutes/hours/days = n)` becomes `minutes/hours/days n`.
 * A JWT is modelled symbolically: either a blob signed with some key and
   carrying the payload `{sub, exp, type}`, or a malformed string.
   `jose.jwt.decode` verifies the key and the expiry.
 * Database tables are Lean lists of records; each SQLAlchemy query is
   translated into the corresponding list operation.  `Result.scalar_one_or_none`
   becomes `scalar_one_or_none`, which errors (MultipleResultsFound) when more
   than one row matches.  Columns that the modelled code never reads
   (`id`, `created_at`, `full_name`, `is_superuser`) are omitted.
 * External cryptographic primitives (`hashlib.sha256(...).hexdigest()`,
   `str.encode`, passlib's `CryptContext`) are parameters of the definitions;
   sources of entropy (`os.urandom`, `secrets.token_urlsafe`) are explicit
   inputs.
 * Raised exceptions become `Except` values; a `try/except` that logs and
   returns a default becomes a `match` on the `Except`.
-/

namespace Mindmarks

/-- Python `timedelta(minutes=n)` in seconds. -/
def minutes (n : Int) : Int := n * 60

/-- Python `timedelta(hours=n)` in seconds. -/
def hours (n : Int) : Int := n * 3600

/-- Python `timedelta(days=n)` in seconds. -/
def days (n : Int) : Int := n * 86400

/-- The JWT claims written by `create_access_token` / `create_refresh_token`:
`{"exp": expire, "sub": str(subject), "type": ...}`.  `payload.get("sub")` /
`payload.get("type")` may be absent, hence `Option`. -/
structure Payload where
  sub : Option String
  exp : Int
  ty : Option String
deriving DecidableEq, Repr

/-- A token string, modelled symbolically: `jwt.encode(claims, key, HS256)`
yields `signed claims key`; any other string is `malformed`. -/
inductive Jwt where
  | signed (payload : Payload) (key : String)
  | malformed (raw : String)
deriving DecidableEq, Repr

/-- Errors raised by `jose.jwt.decode`. -/
inductive DecodeError where
  | expiredSignature
  | jwtError
deriving DecidableEq, Repr

/-- Model of `jose.jwt.decode(token, key, algorithms=[ALGORITHM])`: verifies the
signature, then raises `ExpiredSignatureError` when the `exp` claim is in the
past, else returns the payload. -/
def jwtDecode (token : Jwt) (key : String) (now : Int) : Except DecodeError Payload :=
  match token with
  | .malformed _ => .error .jwtError
  | .signed p k =>
    if k ≠ key then .error .jwtError
    else if p.exp < now then .error .expiredSignature
    else .ok p

/-- FastAPI `HTTPException(status_code, detail)`. -/
structure AuthError where
  status : Nat
  detail : String
deriving DecidableEq, Repr

/-- Fields of `app.core.config.settings` read by the modelled code. -/
structure Settings where
  SECRET_KEY : String
  ACCESS_TOKEN_EXPIRE_MINUTES : Int
  REFRESH_TOKEN_EXPIRE_DAYS : Int
deriving Repr

namespace Security

/-- Model of `security.create_access_token(subject, expires_delta)` as called by the
endpoints, which always pass
`expires_delta = timedelta(minutes=settings.ACCESS_TOKEN_EXPIRE_MINUTES)`:
encodes `{"exp": now + delta, "sub": subject, "type": "access"}` under
`settings.SECRET_KEY`. -/
def create_access_token (s : Settings) (now : Int) (subject : String) : Jwt :=
  .signed ⟨some subject, now + minutes s.ACCESS_TOKEN_EXPIRE_MINUTES, some "access"⟩ s.SECRET_KEY

/-- Model of `security.create_refresh_token(subject)`: encodes
`{"exp": now + timedelta(days=settings.REFRESH_TOKEN_EXPIRE_DAYS), "sub": subject,
"type": "refresh"}` under `settings.SECRET_KEY`. -/
def create_refresh_token (s : Settings) (now : Int) (subject : String) : Jwt :=
  .signed ⟨some subject, now + days s.REFRESH_TOKEN_EXPIRE_DAYS, some "refresh"⟩ s.SECRET_KEY

/-- Model of `security.validate_refresh_token(token)`.  Faithful to the source's
exception flow: the body runs inside `try:`, and the
`HTTPException(401, "Invalid token type")` raised there for a non-"refresh"
`type` claim is itself intercepted by the function's own
`except Exception` clause, which re-raises `HTTPException(401, "Invalid
refresh token")`; only `jwt.ExpiredSignatureError` reaches its dedicated
handler. -/
def validate_refresh_token (key : String) (now : Int) (token : Jwt) : Except AuthError Payload :=
  match jwtDecode token key now with
  | .ok payload =>
    if payload.ty ≠ some "refresh" then
      .error ⟨401, "Invalid refresh token"⟩
    else
      .ok payload
  | .error .expiredSignature => .error ⟨401, "Refresh token has expired"⟩
  | .error .jwtError => .error ⟨401, "Invalid refresh token"⟩

/-- One lowercase hex digit, as produced by `bytes.hex()` / `hexdigest()`. -/
def hexDigit (n : Nat) : Char :=
  if n < 10 then Char.ofNat (48 + n)
  else if n < 16 then Char.ofNat (87 + n)
  else '0'

/-- Python `bytes.hex()`: two lowercase hex digits per byte. -/
def bytesHex : List Nat → List Char
  | [] => []
  | b :: bs => hexDigit (b / 16 % 16) :: hexDigit (b % 16) :: bytesHex bs

/-- Value of one hex digit, accepting both cases (`bytes.fromhex`). -/
def hexVal (c : Char) : Option Nat :=
  if 48 ≤ c.toNat ∧ c.toNat ≤ 57 then some (c.toNat - 48)
  else if 97 ≤ c.toNat ∧ c.toNat ≤ 102 then some (c.toNat - 87)
  else if 65 ≤ c.toNat ∧ c.toNat ≤ 70 then some (c.toNat - 55)
  else none

/-- Python `bytes.fromhex(s)`: pairs of hex digits; odd length or a non-hex
character raises `ValueError` (modelled as `none`). -/
def bytes_fromhex : List Char → Option (List Nat)
  | [] => some []
  | [_] => none
  | c1 :: c2 :: cs =>
    match hexVal c1, hexVal c2, bytes_fromhex cs with
    | some hi, some lo, some rest => some ((hi * 16 + lo) :: rest)
    | _, _, _ => none

/-- Python `str.startswith(p)`. -/
def pyStartswith (s p : String) : Bool :=
  p.data.isPrefixOf s.data

/-- Worker for `pySplit`: Python `str.split(sep, maxsplit)` semantics —
split at the next `sep` while splits remain, else the rest is one part;
empty parts are kept. -/
def pySplitAux (sep : Char) : Nat → List Char → List Char → List String
  | _, acc, [] => [String.mk acc]
  | 0, acc, c :: cs => [String.mk (acc ++ c :: cs)]
  | Nat.succ m, acc, c :: cs =>
    if c = sep then String.mk acc :: pySplitAux sep m [] cs
    else pySplitAux sep (Nat.succ m) (acc ++ [c]) cs

/-- Python `s.split(sep, maxsplit)`. -/
def pySplit (sep : Char) (maxsplit : Nat) (s : String) : List String :=
  pySplitAux sep maxsplit [] s.data

/-- The external byte/digest primitives used by `security.py`:
`hashlib.sha256(bytes).hexdigest()` and `str.encode()`. -/
structure HashPrims where
  sha256_hexdigest : List Nat → String
  encode : String → List Nat

/-- passlib's `CryptContext` (`pwd_context`): `hash` and `verify` may raise
(modelled as `Except`). -/
structure PasslibCtx where
  hash : String → Except Unit String
  verify : String → String → Except Unit Bool

/-- Model of `security.hash_password(password)`: try `pwd_context.hash`; on any
exception fall back to `"$fallback$" + salt.hex() + "$" +
sha256(password.encode() + salt).hexdigest()` with `salt = os.urandom(32)`
(the salt is an explicit entropy input here). -/
def hash_password (pr : HashPrims) (ctx : PasslibCtx) (password : String)
    (salt : List Nat) : String :=
  match ctx.hash password with
  | .ok h => h
  | .error _ =>
    "$fallback$" ++ String.mk (bytesHex salt) ++ "$"
      ++ pr.sha256_hexdigest (pr.encode password ++ salt)

/-- Model of `security.verify_password(plain_password, hashed_password)`.  For a
credential starting with `"$fallback$"` the source does
`_, salt_hex, hash_hex = hashed_password.split("$", 3)` and recomputes the
digest; a `ValueError` from the unpacking or from `bytes.fromhex`, or any
other exception, is caught and yields `False`.  Otherwise it defers to
`pwd_context.verify`, with exceptions also yielding `False`. -/
def verify_password (pr : HashPrims) (ctx : PasslibCtx)
    (plain_password hashed_password : String) : Bool :=
  if pyStartswith hashed_password "$fallback$" then
    match pySplit '$' 3 hashed_password with
    | [_, salt_hex, hash_hex] =>
      match bytes_fromhex salt_hex.data with
      | some salt => pr.sha256_hexdigest (pr.encode plain_password ++ salt) == hash_hex
      | none => false
    | _ => false
  else
    match ctx.verify plain_password hashed_password with
    | .ok b => b
    | .error _ => false

end Security

/-- A `users` row (columns read by the modelled code). -/
structure UserRec where
  id : String
  email : String
  hashed_password : String
  is_active : Bool
deriving DecidableEq, Repr

/-- A `refresh_tokens` row (columns read by the modelled code). -/
structure RefreshRec where
  token : Jwt
  user_id : String
  expires_at : Int
  revoked : Bool
deriving DecidableEq, Repr

/-- A `password_reset_tokens` row (columns read by the modelled code). -/
structure ResetRec where
  user_email : String
  token_hash : String
  expires_at : Int
  used : Bool
deriving DecidableEq, Repr

/-- The database state: the three tables the session-lifecycle code touches. -/
structure Db where
  users : List UserRec
  refresh_tokens : List RefreshRec
  reset_tokens : List ResetRec
deriving DecidableEq, Repr

/-- SQLAlchemy `Result.scalar_one_or_none()`: `none` for no row, the row if
unique, and `MultipleResultsFound` (an exception, modelled as `.error`) for
more than one row. -/
def scalar_one_or_none {α : Type} (l : List α) : Except Unit (Option α) :=
  match l with
  | [] => .ok none
  | [a] => .ok (some a)
  | _ => .error ()

/-- Python `str(x)` on an optional string (`str(None) = "None"`), as applied
by `get_user_by_id` to the `sub` claim the refresh endpoint passes it. -/
def pyStr (x : Option String) : String :=
  match x with
  | some s => s
  | none => "None"

/-- Python `str.lower()`: character-wise lowercasing (kept structurally
recursive over the character list so that concrete instances evaluate). -/
def pyLower (s : String) : String :=
  String.mk (s.data.map Char.toLower)

namespace PasswordResetToken

/-- Model of `PasswordResetToken.create_token(user_email, expires_in_hours)`:
generates `token = secrets.token_urlsafe(32)` (an explicit entropy input
here), stores `sha256(token).hexdigest()` and
`expires_at = now + timedelta(hours=expires_in_hours)`, and returns the
record together with the plaintext token.  `h` models
`hashlib.sha256(...).hexdigest()` on strings. -/
def create_token (h : String → String) (now : Int) (user_email : String)
    (expires_in_hours : Int) (token : String) : ResetRec × String :=
  (⟨pyLower user_email, h token, now + hours expires_in_hours, false⟩, token)

/-- Model of `PasswordResetToken.verify_token(token)`: the stored hash matches, the
record is unused, and `utcnow() < expires_at`. -/
def verify_token (h : String → String) (now : Int) (rec : ResetRec)
    (token : String) : Bool :=
  rec.token_hash == h token && !rec.used && decide (now < rec.expires_at)

end PasswordResetToken

namespace UserService

/-- Model of `UserService.get_user_by_email`: `select(User).filter(User.email == email)`,
`scalar_one_or_none`; any exception is logged and yields `None`. -/
def get_user_by_email (db : Db) (email : String) : Option UserRec :=
  match scalar_one_or_none (db.users.filter (fun u => u.email == email)) with
  | .ok r => r
  | .error _ => none

/-- Model of `UserService.get_user_by_id`: `select(User).filter(User.id == str(user_id))`,
`scalar_one_or_none`; any exception yields `None`.  The refresh endpoints call
it with `payload.get("sub")`, which may be `None`. -/
def get_user_by_id (db : Db) (user_id : Option String) : Option UserRec :=
  match scalar_one_or_none (db.users.filter (fun u => u.id == pyStr user_id)) with
  | .ok r => r
  | .error _ => none

/-- Model of `UserService.create_refresh_token(user_id, token)`: inserts a row with
`expires_at = utcnow() + timedelta(days=settings.REFRESH_TOKEN_EXPIRE_DAYS)`
and `revoked` defaulted to `False`, and returns it. -/
def create_refresh_token (s : Settings) (db : Db) (now : Int)
    (user_id : String) (token : Jwt) : Db × Option RefreshRec :=
  let row : RefreshRec := ⟨token, user_id, now + days s.REFRESH_TOKEN_EXPIRE_DAYS, false⟩
  ({ db with refresh_tokens := db.refresh_tokens ++ [row] }, some row)

/-- Model of `UserService.get_refresh_token(token)`: the row with this token value that
is `revoked == False` and `expires_at > utcnow()`; a revoked or expired row is
indistinguishable from no row.  Any exception yields `None`. -/
def get_refresh_token (db : Db) (now : Int) (token : Jwt) : Option RefreshRec :=
  match scalar_one_or_none (db.refresh_tokens.filter
      (fun r => r.token == token && !r.revoked && decide (now < r.expires_at))) with
  | .ok r => r
  | .error _ => none

/-- Model of `UserService.revoke_refresh_token(token)`:
`update(RefreshToken).filter(RefreshToken.token == token).values(revoked=True)`
— an UNCONDITIONAL update (no `revoked == False` filter) — then
`rowcount > 0`. -/
def revoke_refresh_token (db : Db) (token : Jwt) : Db × Bool :=
  let matched := db.refresh_tokens.filter (fun r => r.token == token)
  let updated := db.refresh_tokens.map
      (fun r => if r.token == token then { r with revoked := true } else r)
  ({ db with refresh_tokens := updated }, decide (0 < matched.length))

/-- Model of `UserService.revoke_all_user_refresh_tokens(user_id)`: flips every row of
the user with `revoked == False` and returns the rowcount. -/
def revoke_all_user_refresh_tokens (db : Db) (user_id : String) : Db × Nat :=
  let matched := db.refresh_tokens.filter
      (fun r => r.user_id == user_id && !r.revoked)
  let updated := db.refresh_tokens.map
      (fun r => if r.user_id == user_id && !r.revoked then { r with revoked := true } else r)
  ({ db with refresh_tokens := updated }, matched.length)

/-- Model of `UserService.cleanup_expired_refresh_tokens()`:
`delete(RefreshToken).filter(RefreshToken.expires_at <= utcnow())`, returning
the rowcount. -/
def cleanup_expired_refresh_tokens (db : Db) (now : Int) : Db × Nat :=
  let deleted := db.refresh_tokens.filter (fun r => decide (r.expires_at ≤ now))
  let kept := db.refresh_tokens.filter (fun r => !decide (r.expires_at ≤ now))
  ({ db with refresh_tokens := kept }, deleted.length)

/-- Model of `UserService.cleanup_expired_reset_tokens()`: deletes rows with
`expires_at <= utcnow()` OR `used == True`, returning the rowcount. -/
def cleanup_expired_reset_tokens (db : Db) (now : Int) : Db × Nat :=
  let deleted := db.reset_tokens.filter
      (fun r => decide (r.expires_at ≤ now) || r.used)
  let kept := db.reset_tokens.filter
      (fun r => !(decide (r.expires_at ≤ now) || r.used))
  ({ db with reset_tokens := kept }, deleted.length)

/-- Model of `UserService.create_password_reset_token(email)`: `None` when no user has
this email; otherwise marks `used=True` every row with
`user_email == email.lower()`, `used == False` and `expires_at > utcnow()`,
inserts the record built by `PasswordResetToken.create_token(email.lower())`
(default `expires_in_hours = 1`), and returns the plaintext secret.  `secret`
is the `secrets.token_urlsafe(32)` entropy input. -/
def create_password_reset_token (h : String → String) (db : Db) (now : Int)
    (email : String) (secret : String) : Db × Option String :=
  match get_user_by_email db email with
  | none => (db, none)
  | some _ =>
    let invalidated := db.reset_tokens.map
        (fun r => if r.user_email == pyLower email && !r.used && decide (now < r.expires_at)
                  then { r with used := true } else r)
    let db1 := { db with reset_tokens := invalidated }
    let (reset_record, reset_token) :=
      PasswordResetToken.create_token h now (pyLower email) 1 secret
    ({ db1 with reset_tokens := db1.reset_tokens ++ [reset_record] }, some reset_token)

/-- Observation helper: the live (unused, unexpired) reset records belonging
to one email. -/
def liveForEmail (db : Db) (now : Int) (email : String) : List ResetRec :=
  db.reset_tokens.filter
    (fun r => r.user_email == email && !r.used && decide (now < r.expires_at))

/-- The filter of `verify_and_use_reset_token`'s lookup:
`select(PasswordResetToken).filter(and_(used == False, expires_at > utcnow()))`
— NOTE: the whole table is scanned with no condition on the token. -/
def liveResetTokens (db : Db) (now : Int) : List ResetRec :=
  db.reset_tokens.filter (fun r => !r.used && decide (now < r.expires_at))

/-- Model of `UserService.verify_and_use_reset_token(token, new_password)`: fetches the
unique live record (no token condition; `scalar_one_or_none` raises
`MultipleResultsFound` when several live records exist, which the
`except` clause turns into `False` after rollback); verifies the token against
that record; looks the user up by the record's email; then sets
`user.hashed_password = get_password_hash(new_password)`, marks the record
used, revokes all the user's refresh tokens and commits.  `h` models
`hashlib.sha256(...).hexdigest()` and `ph` models `get_password_hash`. -/
def verify_and_use_reset_token (h ph : String → String) (db : Db) (now : Int)
    (token new_password : String) : Db × Bool :=
  match scalar_one_or_none (liveResetTokens db now) with
  | .error _ => (db, false)
  | .ok none => (db, false)
  | .ok (some reset_record) =>
    if !PasswordResetToken.verify_token h now reset_record token then (db, false)
    else
      match get_user_by_email db reset_record.user_email with
      | none => (db, false)
      | some user =>
        let updatedUsers := db.users.map
            (fun u => if u == user then { u with hashed_password := ph new_password } else u)
        let db1 := { db with users := updatedUsers }
        let markedUsed := db1.reset_tokens.map
            (fun r => if r == reset_record then { r with used := true } else r)
        let db2 := { db1 with reset_tokens := markedUsed }
        let (db3, _) := revoke_all_user_refresh_tokens db2 user.id
        (db3, true)

end UserService

/-- The `Token` response schema (`access_token`, `refresh_token`,
`token_type="bearer"`). -/
structure TokenPair where
  access_token : Jwt
  refresh_token : Jwt
deriving DecidableEq, Repr

namespace AuthEndpoint

/-- The `/auth/refresh` endpoint (`refresh_access_token`): validate the token
cryptographically, require a live persisted row, require an existing active
user, then revoke the old token, issue a new access and refresh token, and
persist the new refresh token.  `HTTPException`s raised inside the body are
re-raised unchanged by `except HTTPException`. -/
def refresh_access_token (s : Settings) (now : Int) (db : Db) (refresh_token : Jwt) :
    Db × Except AuthError TokenPair :=
  match Security.validate_refresh_token s.SECRET_KEY now refresh_token with
  | .error e => (db, .error e)
  | .ok payload =>
    match UserService.get_refresh_token db now refresh_token with
    | none => (db, .error ⟨401, "Invalid or revoked refresh token"⟩)
    | some _ =>
      match UserService.get_user_by_id db payload.sub with
      | none => (db, .error ⟨401, "Invalid user or inactive user"⟩)
      | some user =>
        if !user.is_active then (db, .error ⟨401, "Invalid user or inactive user"⟩)
        else
          let (db1, _) := UserService.revoke_refresh_token db refresh_token
          let access_token := Security.create_access_token s now user.id
          let new_refresh_token := Security.create_refresh_token s now user.id
          let (db2, _) := UserService.create_refresh_token s db1 now user.id new_refresh_token
          (db2, .ok ⟨access_token, new_refresh_token⟩)

/-- All cryptographic, store and account checks of `/auth/refresh` pass. -/
def refreshEligible (s : Settings) (now : Int) (db : Db) (token : Jwt) : Bool :=
  match Security.validate_refresh_token s.SECRET_KEY now token with
  | .error _ => false
  | .ok payload =>
    (UserService.get_refresh_token db now token).isSome &&
    (match UserService.get_user_by_id db payload.sub with
     | none => false
     | some user => user.is_active)

/-- The `/auth/forgot-password` endpoint: lowercases and strips the email,
tries to create a reset token, schedules the notification e-mail as a
background task when one was produced (fire-and-forget, not part of the
response), and returns the one fixed success message in either case. -/
def forgot_password (h : String → String) (db : Db) (now : Int)
    (req_email : String) (secret : String) : Db × String :=
  let email := (pyLower req_email).trim
  match UserService.create_password_reset_token h db now email secret with
  | (db1, some _) =>
    (db1, "If an account with this email exists, you will receive password reset instructions.")
  | (db1, none) =>
    (db1, "If an account with this email exists, you will receive password reset instructions.")

/-- The `/auth/reset-password` endpoint: strips the token, rejects passwords
shorter than 8 characters with a 400, calls `verify_and_use_reset_token`, and
maps `False` to 400 "Invalid or expired reset token". -/
def reset_password (h ph : String → String) (db : Db) (now : Int)
    (req_token req_password : String) : Db × Except AuthError String :=
  let token := req_token.trim
  if req_password.length < 8 then
    (db, .error ⟨400, "Password must be at least 8 characters long"⟩)
  else
    match UserService.verify_and_use_reset_token h ph db now token req_password with
    | (db1, true) =>
      (db1, .ok "Password reset successful. You can now login with your new password.")
    | (db1, false) =>
      (db1, .error ⟨400, "Invalid or expired reset token"⟩)

end AuthEndpoint

/-! Concrete stand-ins for the external primitives and example database
states, used by the witness and counterexample theorems. -/

/-- A concrete injective-on-our-inputs stand-in for `sha256(...).hexdigest()`
on strings (the reset-token hash). -/
def hHash : String → String := fun s => s ++ "#h"

/-- A concrete stand-in for `get_password_hash`. -/
def phHash : String → String := fun s => "H" ++ s

/-- Concrete byte-level primitives for the password-hashing theorems. -/
def prFix : Security.HashPrims :=
  ⟨fun bs => String.mk (Security.bytesHex bs), fun s => s.data.map Char.toNat⟩

/-- A passlib context whose primary scheme is unavailable (`hash` raises). -/
def ctxDown : Security.PasslibCtx :=
  ⟨fun _ => .error (), fun p c => .ok (phHash p == c)⟩

/-- Concrete settings: secret "k", 60-minute access TTL, 30-day refresh TTL. -/
def sFix : Settings := ⟨"k", 60, 30⟩

/-- A well-signed unexpired refresh token for user "u2" under `sFix`. -/
def tokRef : Jwt := .signed ⟨some "u2", 500, some "refresh"⟩ "k"

/-- A database with an active user "u2" and a live persisted row for `tokRef`. -/
def dbRef : Db := ⟨[⟨"u2", "b@x.com", "hp", true⟩], [⟨tokRef, "u2", 1000, false⟩], []⟩

/-- A database holding TWO live reset records (for different emails). -/
def dbTwoLive : Db :=
  ⟨[⟨"u2", "b@x.com", "hp", true⟩], [],
   [⟨"a@x.com", hHash "s1", 100, false⟩, ⟨"b@x.com", hHash "s2", 100, false⟩]⟩

/-- A database holding exactly one live reset record, whose owner exists. -/
def dbOneLive : Db :=
  ⟨[⟨"u2", "b@x.com", "hp", true⟩], [⟨.malformed "t", "u2", 50, false⟩],
   [⟨"b@x.com", hHash "s2", 100, false⟩]⟩

/-- The state after successfully consuming the reset secret of `dbOneLive`. -/
def dbOneLiveUsed : Db :=
  (UserService.verify_and_use_reset_token hHash phHash dbOneLive 0 "s2" "newpass123").1

/-- The state after issuing a fresh reset token for "b@x.com" on `dbOneLive`. -/
def dbAfterIssue : Db :=
  (UserService.create_password_reset_token hHash dbOneLive 0 "b@x.com" "s3").1

/-- A database whose only refresh-token row is ALREADY revoked. -/
def dbRevoked : Db := ⟨[], [⟨.malformed "t1", "u1", 100, true⟩], []⟩

/-- A database whose only reset record is used but NOT yet expired at time 0. -/
def dbUsedUnexpired : Db := ⟨[], [], [⟨"a@x.com", "hh", 50, true⟩]⟩

/-! Helper lemmas about the Python-string primitives. -/

theorem hexDigit_ne_dollar (n : Nat) : Security.hexDigit n ≠ '$' := by
  unfold Security.hexDigit
  split
  · next h => interval_cases n <;> decide
  · split
    · next h1 h2 =>
      have h3 : 10 ≤ n := Nat.le_of_not_lt h1
      interval_cases n <;> decide
    · decide

theorem bytesHex_ne_dollar (bs : List Nat) : ∀ c ∈ Security.bytesHex bs, c ≠ '$' := by
  induction bs with
  | nil => simp [Security.bytesHex]
  | cons b tl ih =>
    intro c hc
    simp only [Security.bytesHex, List.mem_cons] at hc
    rcases hc with h | h | h
    · exact h ▸ hexDigit_ne_dollar _
    · exact h ▸ hexDigit_ne_dollar _
    · exact ih c h

theorem pySplitAux_nil (sep : Char) (n : Nat) (acc : List Char) :
    Security.pySplitAux sep n acc [] = [String.mk acc] := by
  cases n <;> rfl

theorem pySplitAux_succ_cons (sep c : Char) (m : Nat) (acc cs : List Char) :
    Security.pySplitAux sep (m + 1) acc (c :: cs)
      = if c = sep then String.mk acc :: Security.pySplitAux sep m [] cs
        else Security.pySplitAux sep (m + 1) (acc ++ [c]) cs := rfl

theorem pySplitAux_zero (sep : Char) (acc l : List Char) :
    Security.pySplitAux sep 0 acc l = [String.mk (acc ++ l)] := by
  cases l with
  | nil => rw [pySplitAux_nil]; simp
  | cons c cs => rfl

theorem pySplitAux_no_sep (sep : Char) (cs : List Char) (h : ∀ c ∈ cs, c ≠ sep)
    (m : Nat) (acc rest : List Char) :
    Security.pySplitAux sep (m + 1) acc (cs ++ sep :: rest)
      = String.mk (acc ++ cs) :: Security.pySplitAux sep m [] rest := by
  induction cs generalizing acc with
  | nil =>
    rw [List.nil_append, pySplitAux_succ_cons, if_pos rfl]
    simp
  | cons c tl ih =>
    have hc : c ≠ sep := h c (List.mem_cons_self _ _)
    have h' : ∀ x ∈ tl, x ≠ sep := fun x hx => h x (List.mem_cons_of_mem _ hx)
    rw [List.cons_append, pySplitAux_succ_cons, if_neg hc, ih h' (acc ++ [c])]
    simp

theorem pyStartswith_fallback (X : List Char) (Y : String) :
    Security.pyStartswith ("$fallback$" ++ String.mk X ++ "$" ++ Y) "$fallback$" = true := by
  have hd : ("$fallback$" ++ String.mk X ++ "$" ++ Y).data
      = "$fallback$".data ++ (X ++ '$' :: Y.data) := by
    simp [String.data_append]
  unfold Security.pyStartswith
  rw [ List.isPrefixOf_iff_prefix, hd]
  exact List.prefix_append _ _

theorem pySplit_fallback_credential (X : List Char) (Y : String)
    (hX : ∀ c ∈ X, c ≠ '$') :
    Security.pySplit '$' 3 ("$fallback$" ++ String.mk X ++ "$" ++ Y)
      = ["", "fallback", String.mk X, Y] := by
  have hd : ("$fallback$" ++ String.mk X ++ "$" ++ Y).data
      = '$' :: ("fallback".data ++ '$' :: (X ++ '$' :: Y.data)) := by
    simp [String.data_append]
  unfold Security.pySplit
  rw [hd]
  rw [show (3 : Nat) = 2 + 1 from rfl, pySplitAux_succ_cons, if_pos rfl]
  rw [show (2 : Nat) = 1 + 1 from rfl,
      pySplitAux_no_sep '$' "fallback".data (by decide) 1 [] _]
  rw [pySplitAux_no_sep '$' X hX 0 [] _]
  rw [pySplitAux_zero]
  simp

/-- C3: the fallback-format credential produced by `hash_password` when the
primary scheme is unavailable NEVER verifies: `verify_password` unpacks
`split("$", 3)` — which yields FOUR parts for a `"$fallback$salt$digest"`
credential — into three variables, so the resulting `ValueError` is caught
and `False` is returned for every plaintext, in particular the original one.
This refutes the round-trip half of the claim (evidence for the code bug). -/
theorem fallback_credential_never_verifies (pr : Security.HashPrims)
    (ctx : Security.PasslibCtx) (password : String) (salt : List Nat)
    (hfail : ctx.hash password = .error ()) :
    Security.verify_password pr ctx password
      (Security.hash_password pr ctx password salt) = false := by
  have hcred : Security.hash_password pr ctx password salt
      = "$fallback$" ++ String.mk (Security.bytesHex salt) ++ "$"
        ++ pr.sha256_hexdigest (pr.encode password ++ salt) := by
    unfold Security.hash_password
    rw [hfail]
  rw [hcred]
  unfold Security.verify_password
  rw [pyStartswith_fallback]
  rw [if_pos rfl]
  rw [pySplit_fallback_credential _ _ (bytesHex_ne_dollar salt)]

/-- Witness for C3 at a concrete input: with the primary scheme down, hashing
"password1" with salt byte 0 gives a fallback credential that `verify_password`
rejects even for the correct plaintext. -/
theorem fallback_credential_never_verifies_witness :
    ctxDown.hash "password1" = .error () ∧
    Security.verify_password prFix ctxDown "password1"
      (Security.hash_password prFix ctxDown "password1" [0]) = false :=
  ⟨rfl, fallback_credential_never_verifies prFix ctxDown "password1" [0] rfl⟩

/-- C7: evidence for the code bug — a well-signed, unexpired token whose
`type` claim is "access" does NOT produce the distinct wrong-token-type
outcome: the `HTTPException(401, "Invalid token type")` is swallowed by the
function's own `except Exception`, so the caller sees exactly the same
`401 "Invalid refresh token"` as for a malformed token; expired and valid
tokens behave as claimed. -/
theorem validate_refresh_wrong_type_collapse :
    Security.validate_refresh_token "k" 0 (.signed ⟨some "u1", 100, some "access"⟩ "k")
      = .error ⟨401, "Invalid refresh token"⟩ ∧
    Security.validate_refresh_token "k" 0 (.malformed "junk")
      = .error ⟨401, "Invalid refresh token"⟩ ∧
    Security.validate_refresh_token "k" 0 (.signed ⟨some "u1", -5, some "refresh"⟩ "k")
      = .error ⟨401, "Refresh token has expired"⟩ ∧
    Security.validate_refresh_token "k" 0 (.signed ⟨some "u1", 100, some "refresh"⟩ "k")
      = .ok ⟨some "u1", 100, some "refresh"⟩ :=
  ⟨rfl, rfl, rfl, rfl⟩

/-- C4 (counterexample): `revoke_refresh_token` on a token whose only record
is ALREADY revoked returns `true`, where the claim requires `false` (a record
must be "flipped from unrevoked to revoked").  The update has no
`revoked == False` condition, so the already-revoked row still matches. -/
theorem revoke_already_revoked_returns_true :
    dbRevoked.refresh_tokens = [⟨.malformed "t1", "u1", 100, true⟩] ∧
    (UserService.revoke_refresh_token dbRevoked (.malformed "t1")).2 = true := by
  decide

/-- C4 (amended): `revoke(token_value)` returns `true` exactly when SOME
record with that token value exists — regardless of its current revoked
state, because the update is unconditional — and the new state flips every
record with that token value to revoked. -/
theorem revoke_refresh_token_characterization (db : Db) (token : Jwt) :
    ((UserService.revoke_refresh_token db token).2 = true
      ↔ ∃ r ∈ db.refresh_tokens, r.token = token) ∧
    (UserService.revoke_refresh_token db token).1
      = { db with refresh_tokens := (db.refresh_tokens.map
            (fun r => if r.token == token then { r with revoked := true } else r)) } := by
  constructor
  · unfold UserService.revoke_refresh_token
    simp [List.length_pos_iff_exists_mem, List.mem_filter]
  · rfl

/-- Witness for C4's amended theorem: the already-revoked record of
`dbRevoked` still makes `revoke` return `true`. -/
theorem revoke_refresh_token_characterization_witness :
    (UserService.revoke_refresh_token dbRevoked (.malformed "t1")).2 = true :=
  (revoke_refresh_token_characterization dbRevoked (.malformed "t1")).1.mpr
    ⟨⟨.malformed "t1", "u1", 100, true⟩, by decide, rfl⟩

/-- C8 (counterexample): the reset-token sweep deletes a USED record whose
`expires_at` lies in the future (`50 > 0`), where the claim requires every
record with a future expiry to be left untouched: the delete condition is
`expires_at <= now OR used == True`. -/
theorem sweep_reset_deletes_used_unexpired :
    (0 : Int) < 50 ∧
    dbUsedUnexpired.reset_tokens = [⟨"a@x.com", "hh", 50, true⟩] ∧
    UserService.cleanup_expired_reset_tokens dbUsedUnexpired 0 = (⟨[], [], []⟩, 1) := by
  decide

/-- C8 (amended): the refresh-token sweep deletes exactly the records with
`expires_at <= now` (regardless of revoked state) and returns their count;
the reset-token sweep deletes exactly the records with `expires_at <= now`
OR `used = true` and returns their count; an unused record with a future
expiry survives both sweeps. -/
theorem sweep_expired_characterization (db : Db) (now : Int) :
    ((UserService.cleanup_expired_refresh_tokens db now).2
      = (db.refresh_tokens.filter (fun r => decide (r.expires_at ≤ now))).length) ∧
    (∀ r : RefreshRec,
      r ∈ (UserService.cleanup_expired_refresh_tokens db now).1.refresh_tokens
        ↔ r ∈ db.refresh_tokens ∧ now < r.expires_at) ∧
    ((UserService.cleanup_expired_reset_tokens db now).2
      = (db.reset_tokens.filter
          (fun r => decide (r.expires_at ≤ now) || r.used)).length) ∧
    (∀ r : ResetRec,
      r ∈ (UserService.cleanup_expired_reset_tokens db now).1.reset_tokens
        ↔ r ∈ db.reset_tokens ∧ now < r.expires_at ∧ r.used = false) := by
  refine ⟨rfl, ?_, rfl, ?_⟩
  · intro r
    unfold UserService.cleanup_expired_refresh_tokens
    simp [List.mem_filter, not_le]
  · intro r
    unfold UserService.cleanup_expired_reset_tokens
    simp [List.mem_filter, not_le, not_or, and_assoc]

/-- Witness for C8's amended theorem: on `dbUsedUnexpired` at time 0 the
reset sweep reports one deleted record (the used, unexpired one). -/
theorem sweep_expired_characterization_witness :
    (UserService.cleanup_expired_reset_tokens dbUsedUnexpired 0).2
      = (dbUsedUnexpired.reset_tokens.filter
          (fun r => decide (r.expires_at ≤ 0) || r.used)).length :=
  (sweep_expired_characterization dbUsedUnexpired 0).2.2.1

/-- Helper: the response of the forgot-password endpoint is one fixed string
on every path. -/
theorem forgot_password_response (h : String → String) (db : Db) (now : Int)
    (e s : String) :
    (AuthEndpoint.forgot_password h db now e s).2
      = "If an account with this email exists, you will receive password reset instructions." := by
  unfold AuthEndpoint.forgot_password
  rcases hr : UserService.create_password_reset_token h db now ((pyLower e).trim) s with ⟨db1, r⟩
  cases r <;> simp [hr]

/-- C9: the caller-observable result of `forgot_password` is identical across
ANY two runs — in particular across a run whose email belongs to an existing
user and one whose email does not; the response does not depend on the
database, the email, the clock or the generated secret. -/
theorem forgot_password_uniform_response (h1 h2 : String → String)
    (db1 db2 : Db) (now1 now2 : Int) (e1 e2 s1 s2 : String) :
    (AuthEndpoint.forgot_password h1 db1 now1 e1 s1).2
      = (AuthEndpoint.forgot_password h2 db2 now2 e2 s2).2 := by
  rw [forgot_password_response, forgot_password_response]

/-- C10: whenever at least two live (unused, unexpired) reset records exist
anywhere in the table — whatever their emails — `verify_and_use_reset_token`
returns `false` for EVERY presented secret and leaves the state unchanged:
the scan has no token condition, so `scalar_one_or_none` raises
`MultipleResultsFound`, which the handler turns into `False`. -/
theorem multiple_live_reset_tokens_always_fail (h ph : String → String)
    (db : Db) (now : Int) (token new_password : String)
    (hmulti : 2 ≤ (UserService.liveResetTokens db now).length) :
    UserService.verify_and_use_reset_token h ph db now token new_password
      = (db, false) := by
  unfold UserService.verify_and_use_reset_token
  rcases hl : UserService.liveResetTokens db now with _ | ⟨a, _ | ⟨b, l⟩⟩
  · rw [hl] at hmulti; simp at hmulti
  · rw [hl] at hmulti; simp at hmulti
  · rfl

/-- Witness for C10: in `dbTwoLive` (two live records) even the correct
secret "s2" of the second record is rejected. -/
theorem multiple_live_reset_tokens_always_fail_witness :
    UserService.verify_and_use_reset_token hHash phHash dbTwoLive 0 "s2" "newpass123"
      = (dbTwoLive, false) :=
  multiple_live_reset_tokens_always_fail hHash phHash dbTwoLive 0 "s2" "newpass123"
    (by decide)

/-- C2 (counterexample): in `dbTwoLive` a live (unused, unexpired) record
whose stored hash equals `hash("s2")` exists and its owner exists, yet
presenting "s2" fails: the lookup is NOT decided by hash comparison — it
scans for the unique live record of the whole table and here finds two. -/
theorem verify_reset_scan_misses_matching_record :
    (∃ r ∈ dbTwoLive.reset_tokens, r.used = false ∧ (0 : Int) < r.expires_at
        ∧ r.token_hash = hHash "s2"
        ∧ (UserService.get_user_by_email dbTwoLive r.user_email).isSome = true) ∧
    UserService.verify_and_use_reset_token hHash phHash dbTwoLive 0 "s2" "newpass123"
      = (dbTwoLive, false) := by
  decide

/-- C2 (amended): `verify_and_use_reset_token` succeeds exactly when the
live (unused, unexpired) records of the ENTIRE table form a singleton whose
stored hash equals `hash(secret)` and whose owning user exists; the hash
comparison happens only after that one arbitrary live record is fetched. -/
theorem verify_reset_unique_live_characterization (h ph : String → String)
    (db : Db) (now : Int) (token new_password : String) :
    (UserService.verify_and_use_reset_token h ph db now token new_password).2 = true
      ↔ ∃ r, UserService.liveResetTokens db now = [r] ∧ r.token_hash = h token
          ∧ (UserService.get_user_by_email db r.user_email).isSome = true := by
  unfold UserService.verify_and_use_reset_token
  rcases hl : UserService.liveResetTokens db now with _ | ⟨a, _ | ⟨b, l⟩⟩
  · simp [scalar_one_or_none]
  · have hmem : a ∈ UserService.liveResetTokens db now := by
      rw [hl]; exact List.mem_singleton_self a
    have hpred := (List.mem_filter.mp hmem).2
    simp only [Bool.and_eq_true, Bool.not_eq_true', decide_eq_true_eq] at hpred
    obtain ⟨hused, hlive⟩ := hpred
    by_cases hv : a.token_hash = h token
    · rcases hu : UserService.get_user_by_email db a.user_email with _ | u
      · simp [scalar_one_or_none, PasswordResetToken.verify_token, hused, hlive, hv, hu]
      · simp [scalar_one_or_none, PasswordResetToken.verify_token, hused, hlive, hv, hu]
    · simp [scalar_one_or_none, PasswordResetToken.verify_token, hused, hlive, hv]
  · simp [scalar_one_or_none]

/-- Witness for C2's amended theorem: with the single live record of
`dbOneLive` matching `hash("s2")` and its owner present, the reset succeeds. -/
theorem verify_reset_unique_live_characterization_witness :
    (UserService.verify_and_use_reset_token hHash phHash dbOneLive 0 "s2" "newpass123").2
      = true :=
  (verify_reset_unique_live_characterization hHash phHash dbOneLive 0 "s2" "newpass123").mpr
    ⟨⟨"b@x.com", hHash "s2", 100, false⟩, by decide, rfl, by decide⟩

/-- C5: a reset secret is consumable at most once.  If presenting `token`
succeeds, then the unique live record was unused and is flipped to used in
the new state (exactly once — the new reset table is the old one with that
record marked used); and — provided no other stored record collides with
`hash(token)` — every subsequent presentation of the same secret against the
resulting state fails. -/
theorem reset_secret_single_use (h ph : String → String) (db : Db) (now : Int)
    (token newPassword : String) (db' : Db)
    (hsucc : UserService.verify_and_use_reset_token h ph db now token newPassword
      = (db', true))
    (hhash : (db.reset_tokens.filter (fun r => r.token_hash == h token)).length ≤ 1) :
    (∃ c, UserService.liveResetTokens db now = [c] ∧ c.used = false ∧
        db'.reset_tokens = db.reset_tokens.map
          (fun r => if r == c then { r with used := true } else r)) ∧
    (∀ now2 p2, (UserService.verify_and_use_reset_token h ph db' now2 token p2).2 = false) := by
  unfold UserService.verify_and_use_reset_token at hsucc
  rcases hl : UserService.liveResetTokens db now with _ | ⟨a, _ | ⟨b, l⟩⟩
  · rw [hl] at hsucc
    simp [scalar_one_or_none] at hsucc
  · rw [hl] at hsucc
    simp only [scalar_one_or_none] at hsucc
    have hma : a ∈ UserService.liveResetTokens db now := by
      rw [hl]; exact List.mem_singleton_self a
    simp only [UserService.liveResetTokens, List.mem_filter, Bool.and_eq_true,
      Bool.not_eq_true', decide_eq_true_eq] at hma
    obtain ⟨hadb, hused, hlivea⟩ := hma
    by_cases hv : PasswordResetToken.verify_token h now a token = true
    · have hv' := hv
      simp only [PasswordResetToken.verify_token, Bool.and_eq_true, beq_iff_eq,
        Bool.not_eq_true', decide_eq_true_eq] at hv'
      obtain ⟨⟨hva, -⟩, -⟩ := hv'
      rw [hv] at hsucc
      rcases hu : UserService.get_user_by_email db a.user_email with _ | u
      · rw [hu] at hsucc
        simp [scalar_one_or_none] at hsucc
      · rw [hu] at hsucc
        have hRT : db.reset_tokens.map
            (fun r => if r == a then { r with used := true } else r)
            = db'.reset_tokens :=
          congrArg (fun p : Db × Bool => p.1.reset_tokens) hsucc
        constructor
        · exact ⟨a, rfl, hused, hRT.symm⟩
        · intro now2 p2
          unfold UserService.verify_and_use_reset_token
          rcases hl2 : UserService.liveResetTokens db' now2 with _ | ⟨r1, _ | ⟨r2, l2⟩⟩
          · rfl
          · have hm1 : r1 ∈ UserService.liveResetTokens db' now2 := by
              rw [hl2]; exact List.mem_singleton_self r1
            simp only [UserService.liveResetTokens, List.mem_filter, Bool.and_eq_true,
              Bool.not_eq_true', decide_eq_true_eq] at hm1
            obtain ⟨hm1db, hr1used, -⟩ := hm1
            rw [← hRT] at hm1db
            obtain ⟨r0, hr0mem, hr0eq⟩ := List.mem_map.mp hm1db
            by_cases hra : r0 = a
            · rw [hra] at hr0eq
              simp only [beq_self_eq_true, if_true] at hr0eq
              rw [← hr0eq] at hr1used
              simp at hr1used
            · have hbeq : (r0 == a) = false := by simp [hra]
              rw [hbeq] at hr0eq
              simp only [Bool.false_eq_true, if_false] at hr0eq
              have hr1h : ¬ r1.token_hash = h token := by
                intro heq
                have hfa : a ∈ db.reset_tokens.filter
                    (fun r => r.token_hash == h token) :=
                  List.mem_filter.mpr ⟨hadb, by simp [hva]⟩
                have hfr : r0 ∈ db.reset_tokens.filter
                    (fun r => r.token_hash == h token) :=
                  List.mem_filter.mpr ⟨hr0mem, by simp [hr0eq, heq]⟩
                rcases hf : db.reset_tokens.filter (fun r => r.token_hash == h token)
                    with _ | ⟨x, _ | ⟨y, t⟩⟩
                · rw [hf] at hfa; simp at hfa
                · rw [hf] at hfa hfr
                  simp at hfa hfr
                  exact hra (hfr.trans hfa.symm)
                · rw [hf] at hhash; simp at hhash
              have hvt : PasswordResetToken.verify_token h now2 r1 token = false := by
                simp [PasswordResetToken.verify_token, hr1h]
              simp [scalar_one_or_none, hvt]
          · rfl
    · rw [Bool.not_eq_true] at hv
      rw [hv] at hsucc
      simp [scalar_one_or_none] at hsucc
  · rw [hl] at hsucc
    simp [scalar_one_or_none] at hsucc

/-- Witness for C5: after the successful reset on `dbOneLive`, re-presenting
the same secret "s2" fails. -/
theorem reset_secret_single_use_witness :
    (UserService.verify_and_use_reset_token hHash phHash dbOneLiveUsed 0 "s2" "x").2
      = false :=
  (reset_secret_single_use hHash phHash dbOneLive 0 "s2" "newpass123" dbOneLiveUsed
      rfl (by decide)).2 0 "x"

/-- Helper: after marking used every live record of `email`, no live record
of `email` remains in the mapped list. -/
theorem filter_email_map_invalidate_nil (email : String) (now : Int)
    (l : List ResetRec) :
    (l.map (fun r => if r.user_email == email && !r.used && decide (now < r.expires_at)
        then { r with used := true } else r)).filter
      (fun r => r.user_email == email && !r.used && decide (now < r.expires_at)) = [] := by
  rw [List.filter_eq_nil_iff]
  intro x hx
  obtain ⟨r0, hr0, hxe⟩ := List.mem_map.mp hx
  by_cases hc : (r0.user_email == email && !r0.used && decide (now < r0.expires_at)) = true
  · rw [if_pos hc] at hxe
    rw [← hxe]
    simp
  · rw [if_neg hc] at hxe
    rw [← hxe]
    exact fun hh => hc hh

/-- Helper: the live records of any OTHER email are untouched by marking
used the live records of `email`. -/
theorem filter_other_email_map_invalidate (email e' : String) (now : Int)
    (he' : e' ≠ email) (l : List ResetRec) :
    (l.map (fun r => if r.user_email == email && !r.used && decide (now < r.expires_at)
        then { r with used := true } else r)).filter
      (fun r => r.user_email == e' && !r.used && decide (now < r.expires_at))
    = l.filter (fun r => r.user_email == e' && !r.used && decide (now < r.expires_at)) := by
  induction l with
  | nil => rfl
  | cons rh rt ih =>
    by_cases hc : (rh.user_email == email && !rh.used && decide (now < rh.expires_at)) = true
    · have hemail : rh.user_email = email := by
        simp only [Bool.and_eq_true, beq_iff_eq] at hc
        exact hc.1.1
      have hne : (rh.user_email == e') = false := by
        rw [hemail]
        exact beq_eq_false_iff_ne.mpr (fun hh => he' hh.symm)
      have c1 : (({ rh with used := true } : ResetRec).user_email == e'
          && !({ rh with used := true } : ResetRec).used
          && decide (now < ({ rh with used := true } : ResetRec).expires_at)) = false := by
        simp [hne]
      have c2 : (rh.user_email == e' && !rh.used && decide (now < rh.expires_at)) = false := by
        simp [hne]
      simp only [List.map_cons, if_pos hc, List.filter_cons, c1, c2,
        Bool.false_eq_true, if_false]
      exact ih
    · simp only [List.map_cons, if_neg hc, List.filter_cons, ih]

/-- C6: after `create_password_reset_token` succeeds for `email` (already
lowercase), the live records for that email are exactly the freshly inserted
one — every previously live record for the email was first marked used — the
live records of every other email are unchanged, and presenting any secret
with a different hash (in particular an earlier-issued secret for this
email) against the new state fails. -/
theorem reset_issue_invalidates_prior (h ph : String → String) (db : Db)
    (now : Int) (email secret : String) (db' : Db) (s : String)
    (hlow : pyLower email = email)
    (hiss : UserService.create_password_reset_token h db now email secret
      = (db', some s)) :
    UserService.liveForEmail db' now email
      = [⟨email, h secret, now + hours 1, false⟩] ∧
    (∀ e', e' ≠ email →
        UserService.liveForEmail db' now e' = UserService.liveForEmail db now e') ∧
    (∀ sOld p2, h sOld ≠ h secret →
        (UserService.verify_and_use_reset_token h ph db' now sOld p2).2 = false) := by
  unfold UserService.create_password_reset_token at hiss
  rcases hu : UserService.get_user_by_email db email with _ | u
  · rw [hu] at hiss
    simp at hiss
  · rw [hu] at hiss
    have hdb' : db' = { db with reset_tokens := (db.reset_tokens.map
          (fun r => if r.user_email == pyLower email && !r.used && decide (now < r.expires_at)
                    then { r with used := true } else r))
        ++ [⟨pyLower (pyLower email), h secret, now + hours 1, false⟩] } :=
      (congrArg Prod.fst hiss).symm
    simp only [hlow] at hdb'
    have hpnew : ((⟨email, h secret, now + hours 1, false⟩ : ResetRec).user_email == email
        && !(⟨email, h secret, now + hours 1, false⟩ : ResetRec).used
        && decide (now < (⟨email, h secret, now + hours 1, false⟩ : ResetRec).expires_at))
        = true := by
      simp [hours]
    refine ⟨?_, ?_, ?_⟩
    · rw [hdb']
      unfold UserService.liveForEmail
      dsimp only
      rw [List.filter_append, filter_email_map_invalidate_nil, List.nil_append]
      simp only [List.filter_cons, List.filter_nil, hpnew, if_true]
    · intro e' he'
      rw [hdb']
      unfold UserService.liveForEmail
      dsimp only
      rw [List.filter_append, filter_other_email_map_invalidate email e' now he']
      have hnewne : ((⟨email, h secret, now + hours 1, false⟩ : ResetRec).user_email == e'
          && !(⟨email, h secret, now + hours 1, false⟩ : ResetRec).used
          && decide (now < (⟨email, h secret, now + hours 1, false⟩ : ResetRec).expires_at))
          = false := by
        have : ((⟨email, h secret, now + hours 1, false⟩ : ResetRec).user_email == e')
            = false := beq_eq_false_iff_ne.mpr (fun hh => he' hh.symm)
        simp [this]
      simp only [List.filter_cons, List.filter_nil, hnewne, Bool.false_eq_true, if_false,
        List.append_nil]
    · intro sOld p2 hneq
      have hmemnew : (⟨email, h secret, now + hours 1, false⟩ : ResetRec)
          ∈ UserService.liveResetTokens db' now := by
        rw [hdb']
        unfold UserService.liveResetTokens
        refine List.mem_filter.mpr ⟨?_, ?_⟩
        · exact List.mem_append_right _ (List.mem_singleton_self _)
        · simp [hours]
      unfold UserService.verify_and_use_reset_token
      rcases hl2 : UserService.liveResetTokens db' now with _ | ⟨r1, _ | ⟨r2, l2⟩⟩
      · rfl
      · rw [hl2] at hmemnew
        have hr1 : (⟨email, h secret, now + hours 1, false⟩ : ResetRec) = r1 :=
          List.mem_singleton.mp hmemnew
        have hbad : (r1.token_hash == h sOld) = false := by
          rw [← hr1]
          exact beq_eq_false_iff_ne.mpr (fun hh => hneq hh.symm)
        have hvt : PasswordResetToken.verify_token h now r1 sOld = false := by
          simp [PasswordResetToken.verify_token, hbad]
        simp [scalar_one_or_none, hvt]
      · rfl

/-- Witness for C6: issuing a second reset token for "b@x.com" on `dbOneLive`
invalidates the earlier secret "s2", which afterwards fails to verify. -/
theorem reset_issue_invalidates_prior_witness :
    (UserService.verify_and_use_reset_token hHash phHash dbAfterIssue 0 "s2" "x").2
      = false :=
  (reset_issue_invalidates_prior hHash phHash dbOneLive 0 "b@x.com" "s3" dbAfterIssue "s3"
      (by decide) rfl).2.2 "s2" "x" (by decide)

/-- Helper: every failure of `validate_refresh_token` carries HTTP status 401. -/
theorem validate_refresh_token_status (key : String) (now : Int) (t : Jwt)
    (e : AuthError) (he : Security.validate_refresh_token key now t = .error e) :
    e.status = 401 := by
  unfold Security.validate_refresh_token at he
  rcases hd : jwtDecode t key now with e0 | p
  all_goals rw [hd] at he
  · cases e0 with
    | expiredSignature =>
      have he2 : Except.error (α := Payload)
          (⟨401, "Refresh token has expired"⟩ : AuthError) = .error e := he
      injection he2 with h
      rw [← h]
    | jwtError =>
      have he2 : Except.error (α := Payload)
          (⟨401, "Invalid refresh token"⟩ : AuthError) = .error e := he
      injection he2 with h
      rw [← h]
  · have he2 : (if p.ty ≠ some "refresh"
        then Except.error (⟨401, "Invalid refresh token"⟩ : AuthError)
        else Except.ok p) = .error e := he
    by_cases hty : p.ty ≠ some "refresh"
    · rw [if_pos hty] at he2
      injection he2 with h
      rw [← h]
    · rw [if_neg hty] at he2
      exact Except.noConfusion he2

/-- C1: the refresh operation is fail-closed and all-or-nothing.  Every
failure is a 401 error and leaves the database unchanged (the old token is
not consumed); a success happens only when the token is cryptographically
valid, its persisted row is live, and the owning account exists and is
active, and then the final state simultaneously revokes every row holding
the old token value and persists the returned new refresh token as a live
row — no state in which the old token is consumed without the new one
persisted is ever observable. -/
theorem refresh_rotation_fail_closed (s : Settings) (now : Int) (db : Db) (t : Jwt) :
    (∀ e, (AuthEndpoint.refresh_access_token s now db t).2 = .error e →
        e.status = 401 ∧ (AuthEndpoint.refresh_access_token s now db t).1 = db) ∧
    (∀ pair, (AuthEndpoint.refresh_access_token s now db t).2 = .ok pair →
        ∃ payload user,
          Security.validate_refresh_token s.SECRET_KEY now t = .ok payload ∧
          (UserService.get_refresh_token db now t).isSome = true ∧
          UserService.get_user_by_id db payload.sub = some user ∧
          user.is_active = true ∧
          pair = ⟨Security.create_access_token s now user.id,
                  Security.create_refresh_token s now user.id⟩ ∧
          (AuthEndpoint.refresh_access_token s now db t).1
            = { db with refresh_tokens := (db.refresh_tokens.map
                  (fun r => if r.token == t then { r with revoked := true } else r))
                ++ [⟨Security.create_refresh_token s now user.id, user.id,
                     now + days s.REFRESH_TOKEN_EXPIRE_DAYS, false⟩] }) := by
  rcases hv : Security.validate_refresh_token s.SECRET_KEY now t with e0 | payload
  · have hres : AuthEndpoint.refresh_access_token s now db t = (db, .error e0) := by
      unfold AuthEndpoint.refresh_access_token
      rw [hv]
    constructor
    · intro e he
      rw [hres] at he
      have he2 : Except.error (α := TokenPair) e0 = .error e := he
      injection he2 with h
      rw [h] at hv
      exact ⟨validate_refresh_token_status _ _ _ _ hv, by rw [hres]⟩
    · intro pair hp
      rw [hres] at hp
      exact Except.noConfusion (show Except.error (α := TokenPair) e0 = .ok pair from hp)
  · rcases hg : UserService.get_refresh_token db now t with _ | record
    · have hres : AuthEndpoint.refresh_access_token s now db t
          = (db, .error ⟨401, "Invalid or revoked refresh token"⟩) := by
        unfold AuthEndpoint.refresh_access_token
        rw [hv, hg]
      constructor
      · intro e he
        rw [hres] at he
        have he2 : Except.error (α := TokenPair)
            (⟨401, "Invalid or revoked refresh token"⟩ : AuthError) = .error e := he
        injection he2 with h
        exact ⟨by rw [← h], by rw [hres]⟩
      · intro pair hp
        rw [hres] at hp
        exact Except.noConfusion (show Except.error (α := TokenPair)
          (⟨401, "Invalid or revoked refresh token"⟩ : AuthError) = .ok pair from hp)
    · rcases hu : UserService.get_user_by_id db payload.sub with _ | ⟨uid, uemail, upw, _ | _⟩
      · have hres : AuthEndpoint.refresh_access_token s now db t
            = (db, .error ⟨401, "Invalid user or inactive user"⟩) := by
          unfold AuthEndpoint.refresh_access_token
          simp only [hv, hg, hu]
          try rfl
        constructor
        · intro e he
          rw [hres] at he
          have he2 : Except.error (α := TokenPair)
              (⟨401, "Invalid user or inactive user"⟩ : AuthError) = .error e := he
          injection he2 with h
          exact ⟨by rw [← h], by rw [hres]⟩
        · intro pair hp
          rw [hres] at hp
          exact Except.noConfusion (show Except.error (α := TokenPair)
            (⟨401, "Invalid user or inactive user"⟩ : AuthError) = .ok pair from hp)
      · have hres : AuthEndpoint.refresh_access_token s now db t
            = (db, .error ⟨401, "Invalid user or inactive user"⟩) := by
          unfold AuthEndpoint.refresh_access_token
          simp only [hv, hg, hu]
          try rfl
        constructor
        · intro e he
          rw [hres] at he
          have he2 : Except.error (α := TokenPair)
              (⟨401, "Invalid user or inactive user"⟩ : AuthError) = .error e := he
          injection he2 with h
          exact ⟨by rw [← h], by rw [hres]⟩
        · intro pair hp
          rw [hres] at hp
          exact Except.noConfusion (show Except.error (α := TokenPair)
            (⟨401, "Invalid user or inactive user"⟩ : AuthError) = .ok pair from hp)
      · have hres : AuthEndpoint.refresh_access_token s now db t
            = ({ db with refresh_tokens := (db.refresh_tokens.map
                  (fun r => if r.token == t then { r with revoked := true } else r))
                ++ [⟨Security.create_refresh_token s now uid, uid,
                     now + days s.REFRESH_TOKEN_EXPIRE_DAYS, false⟩] },
               .ok ⟨Security.create_access_token s now uid,
                    Security.create_refresh_token s now uid⟩) := by
          unfold AuthEndpoint.refresh_access_token
          simp only [hv, hg, hu]
          try rfl
        constructor
        · intro e he
          rw [hres] at he
          exact Except.noConfusion (show Except.ok (ε := AuthError)
            (⟨Security.create_access_token s now uid,
              Security.create_refresh_token s now uid⟩ : TokenPair) = .error e from he)
        · intro pair hp
          rw [hres] at hp
          have hp2 : Except.ok (ε := AuthError)
              (⟨Security.create_access_token s now uid,
                Security.create_refresh_token s now uid⟩ : TokenPair) = .ok pair := hp
          injection hp2 with h
          exact ⟨payload, ⟨uid, uemail, upw, true⟩, rfl, rfl, hu, rfl, h.symm, by rw [hres]⟩

/-- Witness for C1 at a concrete failing input: a malformed token is refused
with a 401 and the database of `dbRef` is left untouched. -/
theorem refresh_rotation_fail_closed_witness :
    (⟨401, "Invalid refresh token"⟩ : AuthError).status = 401 ∧
    (AuthEndpoint.refresh_access_token sFix 0 dbRef (.malformed "x")).1 = dbRef :=
  (refresh_rotation_fail_closed sFix 0 dbRef (.malformed "x")).1
    ⟨401, "Invalid refresh token"⟩ rfl

end Mindmarks
